import Mathlib

/-!
Verification of the segment-timing and resilient-generation pipeline of the
youtube_automation_app repository.

The Python sources are embedded shallowly:

* pure numeric code uses `ℚ` for Python floats (the claims under scrutiny are
  about exact arithmetic identities, order and counting, not rounding);
* fallible code returns `Except PyExn`, where `PyExn` mirrors the Python
  exception classes the source raises;
* the external collaborators (DALL-E call, wave header parse, pydub decode,
  `os.path.getsize`, moviepy) are abstracted as oracle inputs: an `Option`
  or outcome value describing what the collaborator would return, so the
  control flow of the embedded function is exactly the control flow of the
  source.
-/

/-- A Python exception, identified by its class and message. -/
inductive PyExn where
  | fileNotFoundError (message : String)
  | runtimeError (message : String)
  | valueError (message : String)
  | zeroDivisionError (message : String)
  | exception (message : String)
deriving DecidableEq

/-- The `str(e)` view of an exception: its message. -/
def PyExn.message : PyExn → String
  | .fileNotFoundError m => m
  | .runtimeError m => m
  | .valueError m => m
  | .zeroDivisionError m => m
  | .exception m => m

/-!
Embeddings of the Python string primitives the pipeline uses, written as
structural recursions over `List Char` so that every concrete run of the
embedded code evaluates inside the kernel.
-/

/-- Python `s.lower()`, as a character list. -/
def lowerChars (s : String) : List Char :=
  s.toList.map Char.toLower

/-- Python `s.lower().endswith(ext)`. -/
def lowerEndsWith (s : String) (ext : String) : Bool :=
  ext.toList.isSuffixOf (lowerChars s)

/-- Whether `needle` occurs at the start of `haystack` (helper for the
Python `in` operator on strings). -/
def charsBeginWith : List Char → List Char → Bool
  | [], _ => true
  | _ :: _, [] => false
  | a :: as, b :: bs => a == b && charsBeginWith as bs

/-- Python `needle in haystack` for strings: substring containment. -/
def charsContain (needle : List Char) : List Char → Bool
  | [] => needle.isEmpty
  | c :: rest => charsBeginWith needle (c :: rest) || charsContain needle rest

namespace AudioProcessor

/-- The observable facts about an audio file consulted by
`AudioProcessor.get_duration` (core/audio_processor.py, lines 58-107):
whether the path exists, what the `wave` header parse would yield for a
`.wav` file (`none` when the parse fails), what the pydub decoding
collaborator would yield (`none` when it fails), and what
`os.path.getsize` would yield (`none` when the size is unreadable). -/
structure AudioFile where
  path : String
  existsOnDisk : Bool
  wavResult : Option ℚ
  pydubResult : Option ℚ
  sizeBytes : Option ℕ
deriving DecidableEq

/-- Embeds `AudioProcessor.get_duration` (core/audio_processor.py, lines 58-107).
Raises `FileNotFoundError` when the path does not exist; otherwise tries the
wave-header parse (only for paths ending in `.wav`), then pydub (only when
FFmpeg is available), then falls back to a file-size estimate assuming
128 kbps (default, also for `.mp3`) or 256 kbps (`.m4a`); raises
`RuntimeError` only when the file size cannot be read. -/
def get_duration (ffmpeg_available : Bool) (f : AudioFile) : Except PyExn ℚ :=
  if f.existsOnDisk = false then
    .error (.fileNotFoundError ("Audio file not found: " ++ f.path))
  else
    match (if lowerEndsWith f.path ".wav" then f.wavResult else none) with
    | some duration => .ok duration
    | none =>
      match (if ffmpeg_available then f.pydubResult else none) with
      | some duration => .ok duration
      | none =>
        match f.sizeBytes with
        | some file_size =>
          if lowerEndsWith f.path ".mp3" then
            .ok ((file_size : ℚ) * 8 / (128 * 1000))
          else if lowerEndsWith f.path ".m4a" then
            .ok ((file_size : ℚ) * 8 / (256 * 1000))
          else
            .ok ((file_size : ℚ) * 8 / (128 * 1000))
        | none =>
          .error (.runtimeError
            "Cannot determine audio duration - FFmpeg is required for accurate audio processing")

/-- Embeds `AudioProcessor.generate_timestamps` (core/audio_processor.py,
lines 138-152): `ValueError` for a non-positive segment count, otherwise the
list `[i * (total_duration / num_segments) for i in range(num_segments)]`. -/
def generate_timestamps (total_duration : ℚ) (num_segments : ℤ) :
    Except PyExn (List ℚ) :=
  if num_segments ≤ 0 then
    .error (.valueError "Number of segments must be positive")
  else
    let segment_duration := total_duration / (num_segments : ℚ)
    .ok ((List.range num_segments.toNat).map fun i : ℕ => (i : ℚ) * segment_duration)

end AudioProcessor

namespace ProcessingThread

/-- Helper for `pyWords`: scan the characters, accumulating the current word
in reverse, emitting a word at each whitespace boundary and at the end. -/
def pyWordsAux : List Char → List Char → List String
  | current, [] => if current = [] then [] else [String.mk current.reverse]
  | current, c :: rest =>
    if c.isWhitespace then
      if current = [] then pyWordsAux [] rest
      else String.mk current.reverse :: pyWordsAux [] rest
    else pyWordsAux (c :: current) rest

/-- Python `script.split()`: split on whitespace, discarding empty pieces. -/
def pyWords (s : String) : List String :=
  pyWordsAux [] s.toList

/-- The word-level slicing done by the loop of `ProcessingThread._split_script`
(ai_video_tool_openai.py, lines 230-245): segment `i` is
`words[i*wps : i*wps+wps]` except the last, which is `words[i*wps:]`,
with `wps = len(words) // num_segments`. -/
def split_words (words : List String) (num_segments : ℕ) : List (List String) :=
  let words_per_segment := words.length / num_segments
  (List.range num_segments).map fun i =>
    let start_idx := i * words_per_segment
    if i = num_segments - 1 then
      words.drop start_idx
    else
      (words.drop start_idx).take words_per_segment

/-- Embeds `ProcessingThread._split_script` (ai_video_tool_openai.py, lines 230-245).
For `num_segments = 0` the Python `len(words) // num_segments` raises
`ZeroDivisionError`; otherwise each word slice is joined with single spaces. -/
def _split_script (script : String) (num_segments : ℕ) :
    Except PyExn (List String) :=
  if num_segments = 0 then
    .error (.zeroDivisionError "integer division or modulo by zero")
  else
    .ok ((split_words (pyWords script) num_segments).map
      (fun segment => " ".intercalate segment))

end ProcessingThread

namespace OpenAIImageGenerator

/-- Outcome of one call to the image-generation collaborator (the DALL-E
request plus download and prompt-record write of one attempt inside
`generate_and_save_image`): a saved image path, or a raised exception. -/
inductive GenOutcome where
  | success (image_path : String)
  | failure (e : PyExn)
deriving DecidableEq

/-- The classification `"rate_limit" in str(e).lower()` of
core/openai_generator.py, line 110. -/
def isRateLimitError (e : PyExn) : Bool :=
  charsContain "rate_limit".toList (lowerChars e.message)

/-- The retry loop of `OpenAIImageGenerator.generate_and_save_image`
(core/openai_generator.py, lines 63-120).  `gen` is the collaborator,
indexed by attempt number; `fuel` is the number of loop iterations left;
the result carries the outcome, the number of collaborator invocations
made, and the list of sleeps performed (in seconds, in order).  A
rate-limit-classified failure sleeps `min(30 * (attempt + 1), 120)` and
retries (even on the last attempt, after which the loop ends and a fresh
generic exception is raised); any other failure re-raises on the last
attempt and otherwise sleeps 5 seconds. -/
def retryLoop (gen : ℕ → GenOutcome) (max_retries : ℕ) :
    ℕ → ℕ → List ℕ → Except PyExn String × ℕ × List ℕ
  | 0, attempt, delays =>
    (.error (.exception "Failed to generate image after all retries"), attempt, delays)
  | fuel + 1, attempt, delays =>
    match gen attempt with
    | .success image_path => (.ok image_path, attempt + 1, delays)
    | .failure e =>
      if isRateLimitError e then
        retryLoop gen max_retries fuel (attempt + 1)
          (delays ++ [min (30 * (attempt + 1)) 120])
      else if attempt = max_retries - 1 then
        (.error e, attempt + 1, delays)
      else
        retryLoop gen max_retries fuel (attempt + 1) (delays ++ [5])

/-- Embeds `OpenAIImageGenerator.generate_and_save_image` with its retry budget,
run from attempt 0 with no sleeps performed yet. -/
def generate_and_save_image (gen : ℕ → GenOutcome) (max_retries : ℕ) :
    Except PyExn String × ℕ × List ℕ :=
  retryLoop gen max_retries max_retries 0 []

end OpenAIImageGenerator

namespace ProcessingThread

/-- One entry of `generated_images` in `ProcessingThread.process_ai_images`
(ai_video_tool_openai.py, lines 127-131). -/
structure ImageRecord where
  path : String
  timestamp : ℚ
  duration : ℚ
deriving DecidableEq

/-- The fields of the `generation_metadata.json` record written at the end of
`process_ai_images` (ai_video_tool_openai.py, lines 141-152) that the claims
speak about. -/
structure GenerationMetadata where
  images : List ImageRecord
  total_duration : ℚ
deriving DecidableEq

/-- The per-segment generation loop of `ProcessingThread.process_ai_images`
(ai_video_tool_openai.py, lines 103-139): iterate over
`enumerate(zip(script_segments, timestamps))`; on success append a record
with the segment timestamp and a duration reaching to the next timestamp
(or to the end of the audio for the last index); on failure emit a status
and `continue` with the next segment. `gen` is the per-segment outcome of
`generate_and_save_image` (its own retries already folded in). -/
def genImagesLoop (duration : ℚ) (timestamps : List ℚ)
    (gen : ℕ → Except PyExn String) :
    List (String × ℚ) → ℕ → List ImageRecord
  | [], _ => []
  | (_segment, timestamp) :: rest, i =>
    match gen i with
    | .ok image_path =>
        { path := image_path
          timestamp := timestamp
          duration := if i < timestamps.length - 1 then
              timestamps.getD (i + 1) 0 - timestamp
            else duration - timestamp } :: genImagesLoop duration timestamps gen rest (i + 1)
    | .error _ => genImagesLoop duration timestamps gen rest (i + 1)

/-- Embeds `ProcessingThread.process_ai_images` (ai_video_tool_openai.py,
lines 103-152), restricted to what the claims are about: run the generation
loop over the zipped segments and timestamps, then write the aggregate
metadata record listing exactly the successfully generated images. -/
def process_ai_images (duration : ℚ) (script_segments : List String)
    (timestamps : List ℚ) (gen : ℕ → Except PyExn String) :
    List ImageRecord × GenerationMetadata :=
  let generated_images :=
    genImagesLoop duration timestamps gen (script_segments.zip timestamps) 0
  (generated_images, { images := generated_images, total_duration := duration })

/-- The playlist built by `ProcessingThread.process_broll`
(ai_video_tool_openai.py, lines 191-206): `intro_clips` is accumulated by
appending each intro path in order, then `all_clips = intro_clips +
shuffled_broll`.  The shuffled B-roll list is passed in as the outcome of
`random.shuffle` on a copy of `broll_paths`. -/
def reorganize_clips (intro_paths shuffled_broll : List String) : List String :=
  let intro_clips := intro_paths.foldl (fun acc path => acc ++ [path]) []
  intro_clips ++ shuffled_broll

end ProcessingThread

namespace VideoProcessor

/-- External collaborator invocations performed by
`VideoProcessor.create_full_video`: loading the audio track
(`AudioFileClip`), loading an image (`ImageClip`), exporting the final
video (`write_videofile`). -/
inductive VidAction where
  | loadAudio (audio_path : String)
  | loadImage (image_path : String)
  | exportVideo (output_path : String)
deriving DecidableEq

/-- Embeds `VideoProcessor.create_full_video` (core/video_processor.py,
lines 169-217), returning the trace of external invocations in order,
and the duration of the exported video (or the raised exception).  The
source loads the audio first, builds one `ImageClip` per record, and
concatenates them; moviepy's `concatenate_videoclips` on an empty clip
list raises `ValueError` (`max()` over the empty clip sizes), so the empty
case fails there, after the audio load.  The concatenated duration is the
sum of the clip durations; it is then truncated with `subclip(0,
total_duration)` when longer than the audio, or extended by a freeze frame
of length `total_duration - final_video.duration` when shorter. -/
def create_full_video (audio_duration : ℚ) (image_data : List ProcessingThread.ImageRecord)
    (audio_path output_path : String) :
    List VidAction × Except PyExn ℚ :=
  let loads := VidAction.loadAudio audio_path ::
    image_data.map (fun data => VidAction.loadImage data.path)
  match image_data with
  | [] => (loads, .error (.valueError "max() arg is an empty sequence"))
  | _ :: _ =>
    let total_duration := audio_duration
    let visual_duration := (image_data.map (fun data => data.duration)).sum
    let final_duration :=
      if visual_duration > total_duration then
        total_duration
      else if visual_duration < total_duration then
        visual_duration + (total_duration - visual_duration)
      else
        visual_duration
    (loads ++ [VidAction.exportVideo output_path], .ok final_duration)

end VideoProcessor

/-!
Shared helper lemmas.
-/

lemma foldl_append_singleton (l acc : List String) :
    l.foldl (fun a path => a ++ [path]) acc = acc ++ l := by
  induction l generalizing acc with
  | nil => simp
  | cons x xs ih => simp [List.foldl_cons, ih]

/-- C9: the playlist passed to concatenation is the intro clips in exactly
their input order, followed by a permutation of the B-roll clips. -/
theorem reorganize_clips_intro_order_and_broll_multiset
    (intro_paths broll_paths shuffled_broll : List String)
    (hperm : shuffled_broll.Perm broll_paths) :
    (ProcessingThread.reorganize_clips intro_paths shuffled_broll).take
        intro_paths.length = intro_paths ∧
    ((ProcessingThread.reorganize_clips intro_paths shuffled_broll).drop
        intro_paths.length).Perm broll_paths := by
  unfold ProcessingThread.reorganize_clips
  rw [foldl_append_singleton, List.nil_append]
  exact ⟨List.take_left intro_paths shuffled_broll,
    by rw [List.drop_left]; exact hperm⟩

/-- Witness for C9 at a concrete playlist. -/
theorem reorganize_clips_witness :
    (["intro1.mp4", "intro2.mp4"].Perm ["intro1.mp4", "intro2.mp4"] → True) ∧
    ((ProcessingThread.reorganize_clips ["intro1.mp4", "intro2.mp4"]
        ["b3.mp4", "b1.mp4", "b2.mp4"]).take 2 = ["intro1.mp4", "intro2.mp4"] ∧
      ((ProcessingThread.reorganize_clips ["intro1.mp4", "intro2.mp4"]
        ["b3.mp4", "b1.mp4", "b2.mp4"]).drop 2).Perm
        ["b1.mp4", "b2.mp4", "b3.mp4"]) :=
  ⟨fun _ => trivial,
    reorganize_clips_intro_order_and_broll_multiset
      ["intro1.mp4", "intro2.mp4"] ["b1.mp4", "b2.mp4", "b3.mp4"]
      ["b3.mp4", "b1.mp4", "b2.mp4"] (by decide)⟩

/-- C2: in the per-segment generation loop, a failing segment is skipped and
the run continues; with 5 segments and segment 3 failing, exactly the records
for segments 1, 2, 4, 5 are produced, in order, and the aggregate metadata
lists exactly the successful records (for every run, the metadata's image list
equals the returned artifact list). -/
theorem process_ai_images_skips_failed_segment
    (s₁ s₂ s₃ s₄ s₅ p₁ p₂ p₄ p₅ : String) (t₁ t₂ t₃ t₄ t₅ d : ℚ) (e : PyExn) :
    (∀ (dur : ℚ) (segs : List String) (ts : List ℚ)
        (gen : ℕ → Except PyExn String),
      (ProcessingThread.process_ai_images dur segs ts gen).2.images
        = (ProcessingThread.process_ai_images dur segs ts gen).1) ∧
    ProcessingThread.process_ai_images d [s₁, s₂, s₃, s₄, s₅]
        [t₁, t₂, t₃, t₄, t₅]
        (fun i => if i = 0 then .ok p₁ else if i = 1 then .ok p₂ else
          if i = 2 then .error e else if i = 3 then .ok p₄ else .ok p₅)
      = ([⟨p₁, t₁, t₂ - t₁⟩, ⟨p₂, t₂, t₃ - t₂⟩, ⟨p₄, t₄, t₅ - t₄⟩,
          ⟨p₅, t₅, d - t₅⟩],
         { images := [⟨p₁, t₁, t₂ - t₁⟩, ⟨p₂, t₂, t₃ - t₂⟩,
            ⟨p₄, t₄, t₅ - t₄⟩, ⟨p₅, t₅, d - t₅⟩],
           total_duration := d }) :=
  ⟨fun _ _ _ _ => rfl, rfl⟩

/-- C5: the final video's duration always equals the audio duration when at
least one artifact exists (truncation when the visuals are longer, freeze-frame
extension when shorter). -/
theorem create_full_video_matches_audio_duration
    (audio_duration : ℚ) (image_data : List ProcessingThread.ImageRecord)
    (audio_path output_path : String) (h : image_data ≠ []) :
    (VideoProcessor.create_full_video audio_duration image_data
        audio_path output_path).2 = .ok audio_duration := by
  cases image_data with
  | nil => exact absurd rfl h
  | cons first rest =>
    simp only [VideoProcessor.create_full_video]
    split_ifs with h1 h2
    · rfl
    · rw [show (((first :: rest).map
          (fun data => data.duration)).sum
          + (audio_duration - ((first :: rest).map
            (fun data => data.duration)).sum)) = audio_duration by ring]
    · rw [le_antisymm (not_lt.mp h1) (not_lt.mp h2)]

/-- Witness for C5: 12 seconds of visuals against 10 seconds of audio is cut
to 10 seconds; 3 + 5 = 8 seconds of visuals against 10 seconds of audio is
extended to 10 seconds. -/
theorem create_full_video_matches_audio_duration_witness :
    (VideoProcessor.create_full_video 10 [⟨"scene_001.jpg", 0, 12⟩]
        "voice.mp3" "final_video.mp4").2 = .ok 10 ∧
    (VideoProcessor.create_full_video 10
        [⟨"scene_001.jpg", 0, 3⟩, ⟨"scene_002.jpg", 3, 5⟩]
        "voice.mp3" "final_video.mp4").2 = .ok 10 :=
  ⟨create_full_video_matches_audio_duration 10 [⟨"scene_001.jpg", 0, 12⟩]
      "voice.mp3" "final_video.mp4" (by simp),
    create_full_video_matches_audio_duration 10
      [⟨"scene_001.jpg", 0, 3⟩, ⟨"scene_002.jpg", 3, 5⟩]
      "voice.mp3" "final_video.mp4" (by simp)⟩

/-- C8 (amended): `create_full_video` has no empty-artifact precondition
check; on an empty artifact sequence it first loads the audio track (an
external decoder invocation) and only then fails, inside the library
concatenation step, with a `ValueError` rather than a dedicated
precondition error. -/
theorem create_full_video_empty_no_precheck
    (audio_duration : ℚ) (audio_path output_path : String) :
    VideoProcessor.create_full_video audio_duration [] audio_path output_path
      = ([VideoProcessor.VidAction.loadAudio audio_path],
         .error (.valueError "max() arg is an empty sequence")) := rfl

/-- Counterexample to C8 as stated: on an empty artifact sequence the trace
of external invocations is non-empty (the audio decoder has been invoked)
before the failure, and the failure is the library's `ValueError`, not a
precondition error raised before any external process. -/
theorem create_full_video_empty_counterexample :
    (VideoProcessor.create_full_video 10 [] "voice.mp3" "final_video.mp4").1
      = [VideoProcessor.VidAction.loadAudio "voice.mp3"] ∧
    (VideoProcessor.create_full_video 10 [] "voice.mp3" "final_video.mp4").1
      ≠ [] ∧
    (VideoProcessor.create_full_video 10 [] "voice.mp3" "final_video.mp4").2
      = .error (.valueError "max() arg is an empty sequence") :=
  ⟨rfl, by decide, rfl⟩

/-- Counterexample to C7 as stated: splitting a script with an empty word
sequence does not fail at all — it returns a list of empty segments. -/
theorem split_script_empty_words_counterexample :
    ProcessingThread._split_script "" 1 = .ok [""] := rfl

/-- C7 (amended): for every text whose whitespace-delimited word sequence is
empty and every positive segment count, `_split_script` raises no error and
returns `num_segments` empty segments; no `EmptyScript` failure exists. -/
theorem split_script_empty_words_returns_empty_segments
    (text : String) (n : ℕ) (h1 : 1 ≤ n)
    (hw : ProcessingThread.pyWords text = []) :
    ProcessingThread._split_script text n = .ok (List.replicate n "") := by
  unfold ProcessingThread._split_script ProcessingThread.split_words
  rw [if_neg (by omega : ¬ n = 0), hw]
  simp [List.map_const']
  exact Or.inr rfl

/-- Witness for C7 (amended) on whitespace-only text split into 3 segments. -/
theorem split_script_empty_words_witness :
    ProcessingThread._split_script "  \t " 3 = .ok ["", "", ""] :=
  split_script_empty_words_returns_empty_segments "  \t " 3 (by omega) rfl

/-- C3: for positive duration and segment count the planner returns exactly
`segmentCount` timestamps: non-decreasing, first 0, the `i`-th equal to
`i * (totalDuration / segmentCount)`, consecutive differences equal to
`totalDuration / segmentCount`; a non-positive segment count fails with the
`ValueError` standing for `InvalidSegmentCount`. -/
theorem generate_timestamps_plan_contract :
    (∀ (total_duration : ℚ) (num_segments : ℤ),
      0 < total_duration → 0 < num_segments →
      ∃ ts : List ℚ,
        AudioProcessor.generate_timestamps total_duration num_segments
          = .ok ts ∧
        ts.length = num_segments.toNat ∧
        ts.head? = some 0 ∧
        (∀ i : ℕ, i < ts.length →
          ts.getD i 0 = (i : ℚ) * (total_duration / (num_segments : ℚ))) ∧
        (∀ i : ℕ, i + 1 < ts.length →
          ts.getD (i + 1) 0 - ts.getD i 0
            = total_duration / (num_segments : ℚ)) ∧
        List.Sorted (· ≤ ·) ts) ∧
    (∀ (total_duration : ℚ) (num_segments : ℤ),
      num_segments ≤ 0 →
      AudioProcessor.generate_timestamps total_duration num_segments
        = .error (.valueError "Number of segments must be positive")) := by
  constructor
  · intro d n hd hn
    refine ⟨(List.range n.toNat).map
      (fun i : ℕ => (i : ℚ) * (d / (n : ℚ))), ?_, ?_, ?_, ?_, ?_, ?_⟩
    · unfold AudioProcessor.generate_timestamps
      rw [if_neg (by omega)]
    · simp
    · obtain ⟨k, hk⟩ : ∃ k, n.toNat = k + 1 := ⟨n.toNat - 1, by omega⟩
      rw [hk, List.range_succ_eq_map]
      simp
    · intro i hi
      simp only [List.length_map, List.length_range] at hi
      rw [List.getD_eq_getElem?_getD]
      simp [List.getElem?_map, List.getElem?_range hi]
    · intro i hi
      simp only [List.length_map, List.length_range] at hi
      rw [List.getD_eq_getElem?_getD, List.getD_eq_getElem?_getD,
        List.getElem?_map, List.getElem?_map,
        List.getElem?_range hi, List.getElem?_range (by omega : i < n.toNat)]
      simp only [Option.map_some', Option.getD_some]
      push_cast
      ring
    · refine List.pairwise_map.mpr ?_
      refine (List.pairwise_lt_range n.toNat).imp ?_
      intro a b hab
      have hc : 0 ≤ d / (n : ℚ) :=
        div_nonneg hd.le (by exact_mod_cast hn.le)
      exact mul_le_mul_of_nonneg_right (by exact_mod_cast hab.le) hc
  · intro d n hn
    unfold AudioProcessor.generate_timestamps
    rw [if_pos hn]

/-- Witness for C3 at duration 10 and 4 segments, plus the failing count -2. -/
theorem generate_timestamps_plan_contract_witness :
    (∃ ts : List ℚ,
        AudioProcessor.generate_timestamps 10 4 = .ok ts ∧
        ts.length = (4 : ℤ).toNat ∧
        ts.head? = some 0 ∧
        (∀ i : ℕ, i < ts.length →
          ts.getD i 0 = (i : ℚ) * (10 / ((4 : ℤ) : ℚ))) ∧
        (∀ i : ℕ, i + 1 < ts.length →
          ts.getD (i + 1) 0 - ts.getD i 0 = 10 / ((4 : ℤ) : ℚ)) ∧
        List.Sorted (· ≤ ·) ts) ∧
    AudioProcessor.generate_timestamps 10 (-2)
      = .error (.valueError "Number of segments must be positive") :=
  ⟨generate_timestamps_plan_contract.1 10 4 (by norm_num) (by norm_num),
   generate_timestamps_plan_contract.2 10 (-2) (by norm_num)⟩

/-!
Lemmas about the word-level slicing of `_split_script`.
-/

lemma flatten_range_chunks (ws : List String) (w : ℕ) :
    ∀ m, (((List.range m).map
        fun i => (ws.drop (i * w)).take w).flatten) ++ ws.drop (m * w) = ws := by
  intro m
  induction m with
  | zero => simp
  | succ k ih =>
    rw [List.range_succ, List.map_append, List.flatten_append]
    simp only [List.map_cons, List.map_nil, List.flatten_cons, List.flatten_nil,
      List.append_nil]
    rw [List.append_assoc, show (k + 1) * w = k * w + w from by ring,
      ← List.drop_drop, List.take_append_drop]
    exact ih

lemma split_words_succ (ws : List String) (m : ℕ) :
    ProcessingThread.split_words ws (m + 1)
      = ((List.range m).map
          fun i => (ws.drop (i * (ws.length / (m + 1)))).take
            (ws.length / (m + 1)))
        ++ [ws.drop (m * (ws.length / (m + 1)))] := by
  simp only [ProcessingThread.split_words]
  rw [List.range_succ, List.map_append]
  congr 1
  · refine List.map_congr_left ?_
    intro i hi
    rw [List.mem_range] at hi
    rw [if_neg (by omega)]
  · simp

lemma split_words_length (ws : List String) (n : ℕ) :
    (ProcessingThread.split_words ws n).length = n := by
  simp [ProcessingThread.split_words]

lemma split_words_flatten (ws : List String) (n : ℕ) (h : 1 ≤ n) :
    (ProcessingThread.split_words ws n).flatten = ws := by
  obtain ⟨m, rfl⟩ : ∃ m, n = m + 1 := ⟨n - 1, by omega⟩
  rw [split_words_succ, List.flatten_append]
  simp only [List.flatten_cons, List.flatten_nil, List.append_nil]
  exact flatten_range_chunks ws (ws.length / (m + 1)) m

lemma split_words_getD (ws : List String) (n i : ℕ) (hi : i < n) (d : List String) :
    (ProcessingThread.split_words ws n).getD i d
      = (if i = n - 1 then ws.drop (i * (ws.length / n))
        else (ws.drop (i * (ws.length / n))).take (ws.length / n)) := by
  simp only [ProcessingThread.split_words]
  rw [List.getD_eq_getElem?_getD, List.getElem?_map, List.getElem?_range hi]
  rfl

lemma split_words_chunk_length (ws : List String) (n i : ℕ)
    (_h2 : n ≤ ws.length) (hi : i < n - 1) :
    ((ProcessingThread.split_words ws n).getD i []).length = ws.length / n := by
  have hlt : i < n := by omega
  rw [split_words_getD ws n i hlt [], if_neg (by omega)]
  rw [List.length_take, List.length_drop]
  have h3 : ws.length / n * n ≤ ws.length := Nat.div_mul_le_self _ _
  have h4 : (i + 1) * (ws.length / n) ≤ n * (ws.length / n) :=
    Nat.mul_le_mul_right _ (by omega)
  have h5 : i * (ws.length / n) + ws.length / n ≤ ws.length := by
    calc i * (ws.length / n) + ws.length / n
        = (i + 1) * (ws.length / n) := by ring
      _ ≤ n * (ws.length / n) := h4
      _ = ws.length / n * n := by ring
      _ ≤ ws.length := h3
  exact Nat.min_eq_left
    (Nat.le_sub_of_add_le (by rw [Nat.add_comm]; exact h5))

/-- C4: when `1 ≤ n ≤ wordCount`, `_split_script` returns exactly `n`
contiguous chunks of the word sequence (their concatenation is the word
sequence), each non-final chunk holding exactly `wordCount / n` words, and
the chunk word counts sum to the total word count. -/
theorem split_script_chunk_contract (text : String) (n : ℕ)
    (h1 : 1 ≤ n) (h2 : n ≤ (ProcessingThread.pyWords text).length) :
    ProcessingThread._split_script text n
      = .ok ((ProcessingThread.split_words (ProcessingThread.pyWords text) n).map
          (fun segment => " ".intercalate segment)) ∧
    (ProcessingThread.split_words (ProcessingThread.pyWords text) n).length = n ∧
    (ProcessingThread.split_words (ProcessingThread.pyWords text) n).flatten
      = ProcessingThread.pyWords text ∧
    (∀ i : ℕ, i < n - 1 →
      ((ProcessingThread.split_words
        (ProcessingThread.pyWords text) n).getD i []).length
        = (ProcessingThread.pyWords text).length / n) ∧
    ((ProcessingThread.split_words (ProcessingThread.pyWords text) n).map
        List.length).sum = (ProcessingThread.pyWords text).length := by
  refine ⟨?_, split_words_length _ _, split_words_flatten _ _ h1, ?_, ?_⟩
  · unfold ProcessingThread._split_script
    rw [if_neg (by omega)]
  · intro i hi
    exact split_words_chunk_length _ _ _ h2 hi
  · rw [← List.length_flatten, split_words_flatten _ _ h1]

/-- Witness for C4 on a five-word script split into two segments. -/
theorem split_script_chunk_contract_witness :
    ProcessingThread._split_script "alpha beta gamma delta epsilon" 2
      = .ok ((ProcessingThread.split_words
          (ProcessingThread.pyWords "alpha beta gamma delta epsilon") 2).map
          (fun segment => " ".intercalate segment)) ∧
    (ProcessingThread.split_words
      (ProcessingThread.pyWords "alpha beta gamma delta epsilon") 2).length = 2 ∧
    (ProcessingThread.split_words
      (ProcessingThread.pyWords "alpha beta gamma delta epsilon") 2).flatten
      = ProcessingThread.pyWords "alpha beta gamma delta epsilon" ∧
    (∀ i : ℕ, i < 2 - 1 →
      ((ProcessingThread.split_words
        (ProcessingThread.pyWords "alpha beta gamma delta epsilon") 2).getD i []).length
        = (ProcessingThread.pyWords "alpha beta gamma delta epsilon").length / 2) ∧
    ((ProcessingThread.split_words
      (ProcessingThread.pyWords "alpha beta gamma delta epsilon") 2).map
        List.length).sum
      = (ProcessingThread.pyWords "alpha beta gamma delta epsilon").length :=
  split_script_chunk_contract "alpha beta gamma delta epsilon" 2
    (by omega) (by decide)

/-- C10: when the segment count exceeds the word count (and is at least 1),
`_split_script` still returns exactly `n` segments without error; each
non-final chunk is empty (the empty string after joining) and the final
chunk is the entire word sequence, so the total word count is preserved. -/
theorem split_script_overflow_segments (text : String) (n : ℕ)
    (h1 : 1 ≤ n) (h2 : (ProcessingThread.pyWords text).length < n) :
    ProcessingThread._split_script text n
      = .ok ((ProcessingThread.split_words (ProcessingThread.pyWords text) n).map
          (fun segment => " ".intercalate segment)) ∧
    (ProcessingThread.split_words (ProcessingThread.pyWords text) n).length = n ∧
    (∀ i : ℕ, i < n - 1 →
      (ProcessingThread.split_words
        (ProcessingThread.pyWords text) n).getD i ["?"] = []) ∧
    (ProcessingThread.split_words
      (ProcessingThread.pyWords text) n).getD (n - 1) ["?"]
      = ProcessingThread.pyWords text ∧
    (∀ i : ℕ, i < n - 1 →
      ((ProcessingThread.split_words (ProcessingThread.pyWords text) n).map
        (fun segment => " ".intercalate segment)).getD i "?" = "") ∧
    ((ProcessingThread.split_words (ProcessingThread.pyWords text) n).map
        List.length).sum = (ProcessingThread.pyWords text).length := by
  have hq : (ProcessingThread.pyWords text).length / n = 0 := Nat.div_eq_of_lt h2
  have hchunk : ∀ i : ℕ, i < n - 1 →
      (ProcessingThread.split_words (ProcessingThread.pyWords text) n)[i]?
        = some [] := by
    intro i hi
    simp only [ProcessingThread.split_words]
    rw [List.getElem?_map, List.getElem?_range (by omega : i < n)]
    simp only [Option.map_some']
    rw [if_neg (by omega), hq]
    simp
  refine ⟨?_, split_words_length _ _, ?_, ?_, ?_, ?_⟩
  · unfold ProcessingThread._split_script
    rw [if_neg (by omega)]
  · intro i hi
    rw [List.getD_eq_getElem?_getD, hchunk i hi]
    rfl
  · rw [split_words_getD _ _ _ (by omega) ["?"], if_pos rfl, hq]
    simp
  · intro i hi
    rw [List.getD_eq_getElem?_getD, List.getElem?_map, hchunk i hi]
    rfl
  · rw [← List.length_flatten, split_words_flatten _ _ h1]

/-- Witness for C10: a two-word script split into five segments. -/
theorem split_script_overflow_segments_witness :
    ProcessingThread._split_script "a b" 5
      = .ok ((ProcessingThread.split_words
          (ProcessingThread.pyWords "a b") 5).map
          (fun segment => " ".intercalate segment)) ∧
    (ProcessingThread.split_words (ProcessingThread.pyWords "a b") 5).length = 5 ∧
    (∀ i : ℕ, i < 5 - 1 →
      (ProcessingThread.split_words
        (ProcessingThread.pyWords "a b") 5).getD i ["?"] = []) ∧
    (ProcessingThread.split_words
      (ProcessingThread.pyWords "a b") 5).getD (5 - 1) ["?"]
      = ProcessingThread.pyWords "a b" ∧
    (∀ i : ℕ, i < 5 - 1 →
      ((ProcessingThread.split_words (ProcessingThread.pyWords "a b") 5).map
        (fun segment => " ".intercalate segment)).getD i "?" = "") ∧
    ((ProcessingThread.split_words (ProcessingThread.pyWords "a b") 5).map
        List.length).sum = (ProcessingThread.pyWords "a b").length :=
  split_script_overflow_segments "a b" 5 (by omega) (by decide)

lemma retryLoop_calls_le (gen : ℕ → OpenAIImageGenerator.GenOutcome) (m : ℕ) :
    ∀ (fuel attempt : ℕ) (delays : List ℕ),
      (OpenAIImageGenerator.retryLoop gen m fuel attempt delays).2.1
        ≤ attempt + fuel := by
  intro fuel
  induction fuel with
  | zero =>
    intro attempt delays
    simp [OpenAIImageGenerator.retryLoop]
  | succ k ih =>
    intro attempt delays
    rw [OpenAIImageGenerator.retryLoop]
    cases gen attempt with
    | success p => simp
    | failure e =>
      simp only []
      split_ifs with hrl hlast
      · exact le_trans (ih (attempt + 1) _) (by omega)
      · simp
      · exact le_trans (ih (attempt + 1) _) (by omega)

/-- C1 (amended): with the default budget of 3, the collaborator is invoked
at most 3 times; two rate-limit failures then a success yield the artifact
after exactly 3 invocations with backoff delays 30 then 60 (non-decreasing,
per `min(30 * attemptNumber, 120)`); a non-final non-rate-limit failure is
followed by a 5-second delay; when all attempts fail, an error propagates to
the caller — the final call's own error when that failure is not
rate-limit-classified, otherwise a generic all-retries-failed exception that
replaces the call's error. -/
theorem generate_and_save_image_retry_policy :
    (∀ gen : ℕ → OpenAIImageGenerator.GenOutcome,
      (OpenAIImageGenerator.generate_and_save_image gen 3).2.1 ≤ 3) ∧
    (∀ (e : PyExn) (p : String),
      OpenAIImageGenerator.isRateLimitError e = true →
      OpenAIImageGenerator.generate_and_save_image
        (fun i => if i < 2 then .failure e else .success p) 3
        = (.ok p, 3, [30, 60])) ∧
    (∀ (e : PyExn) (p : String),
      OpenAIImageGenerator.isRateLimitError e = false →
      OpenAIImageGenerator.generate_and_save_image
        (fun i => if i = 0 then .failure e else .success p) 3
        = (.ok p, 2, [5])) ∧
    (∀ e₀ e₁ e₂ : PyExn,
      OpenAIImageGenerator.isRateLimitError e₂ = false →
      (OpenAIImageGenerator.generate_and_save_image
        (fun i => if i = 0 then .failure e₀
          else if i = 1 then .failure e₁ else .failure e₂) 3).1
        = .error e₂) ∧
    (∀ e : PyExn,
      OpenAIImageGenerator.isRateLimitError e = true →
      OpenAIImageGenerator.generate_and_save_image (fun _ => .failure e) 3
        = (.error (.exception "Failed to generate image after all retries"), 3,
           [min (30 * 1) 120, min (30 * 2) 120, min (30 * 3) 120])) := by
  refine ⟨?_, ?_, ?_, ?_, ?_⟩
  · intro gen
    exact retryLoop_calls_le gen 3 3 0 []
  · intro e p h
    simp [OpenAIImageGenerator.generate_and_save_image,
      OpenAIImageGenerator.retryLoop, h]
  · intro e p h
    simp [OpenAIImageGenerator.generate_and_save_image,
      OpenAIImageGenerator.retryLoop, h]
  · intro e₀ e₁ e₂ h2
    cases h0 : OpenAIImageGenerator.isRateLimitError e₀ <;>
      cases h1 : OpenAIImageGenerator.isRateLimitError e₁ <;>
      simp [OpenAIImageGenerator.generate_and_save_image,
        OpenAIImageGenerator.retryLoop, h0, h1, h2]
  · intro e h
    simp [OpenAIImageGenerator.generate_and_save_image,
      OpenAIImageGenerator.retryLoop, h]

/-- Witness for C1 (amended) at concrete collaborator stubs. -/
theorem generate_and_save_image_retry_policy_witness :
    (OpenAIImageGenerator.generate_and_save_image
      (fun _ => .success "scene_001.png") 3).2.1 ≤ 3 ∧
    OpenAIImageGenerator.generate_and_save_image
      (fun i => if i < 2 then .failure (.exception "Rate_Limit exceeded")
        else .success "scene_001.png") 3
      = (.ok "scene_001.png", 3, [30, 60]) ∧
    OpenAIImageGenerator.generate_and_save_image
      (fun i => if i = 0 then .failure (.exception "connection reset")
        else .success "scene_001.png") 3
      = (.ok "scene_001.png", 2, [5]) ∧
    (OpenAIImageGenerator.generate_and_save_image
      (fun i => if i = 0 then .failure (.exception "bad gateway")
        else if i = 1 then .failure (.exception "rate_limit hit")
        else .failure (.exception "invalid request")) 3).1
      = .error (.exception "invalid request") ∧
    OpenAIImageGenerator.generate_and_save_image
      (fun _ => .failure (.exception "rate_limit hit")) 3
      = (.error (.exception "Failed to generate image after all retries"), 3,
         [min (30 * 1) 120, min (30 * 2) 120, min (30 * 3) 120]) :=
  ⟨generate_and_save_image_retry_policy.1 (fun _ => .success "scene_001.png"),
   generate_and_save_image_retry_policy.2.1 (.exception "Rate_Limit exceeded")
     "scene_001.png" (by decide),
   generate_and_save_image_retry_policy.2.2.1 (.exception "connection reset")
     "scene_001.png" (by decide),
   generate_and_save_image_retry_policy.2.2.2.1 (.exception "bad gateway")
     (.exception "rate_limit hit") (.exception "invalid request") (by decide),
   generate_and_save_image_retry_policy.2.2.2.2 (.exception "rate_limit hit")
     (by decide)⟩

/-- Counterexample to C1 as stated: when every attempt fails with a
rate-limit-classified error, the exception that propagates after the budget
is exhausted is a freshly raised generic one, not the call's own error. -/
theorem generate_and_save_image_rate_limit_exhaustion_counterexample :
    OpenAIImageGenerator.generate_and_save_image
      (fun _ => .failure (.exception "rate_limit exceeded")) 3
      = (.error (.exception "Failed to generate image after all retries"), 3,
         [30, 60, 90]) ∧
    PyExn.exception "Failed to generate image after all retries"
      ≠ PyExn.exception "rate_limit exceeded" :=
  ⟨rfl, by decide⟩

lemma lowerEndsWith_m4a_not_mp3 (s : String)
    (h : lowerEndsWith s ".m4a" = true) : lowerEndsWith s ".mp3" = false := by
  cases hc : lowerEndsWith s ".mp3"
  · rfl
  · exfalso
    unfold lowerEndsWith at h hc
    rw [List.isSuffixOf_iff_suffix] at h hc
    obtain ⟨t1, e1⟩ := hc
    obtain ⟨t2, e2⟩ := h
    rw [← e1] at e2
    have hlen : t2.length = t1.length := by
      have hcong := congrArg List.length e2
      simp only [List.length_append,
        show (".mp3".toList).length = 4 from rfl,
        show (".m4a".toList).length = 4 from rfl] at hcong
      omega
    have h4 : (".m4a".toList : List Char) = ".mp3".toList :=
      List.append_inj_right e2 hlen
    exact absurd h4 (by decide)

/-- C6 (amended): `get_duration` fails with the `FileNotFoundError` standing
for `AssetNotFound` exactly when the path does not exist; when the header
parse and the decoder are inapplicable and the size is readable, it returns
the size-based estimate `sizeBytes * 8 / bitrate` with 256 kbps for `.m4a`
and 128 kbps otherwise — a non-negative value, positive whenever the file
size is positive (a zero-byte file yields the non-positive estimate 0) —
and it raises nothing; only an unreadable size fails, with the
`RuntimeError` standing for `DurationUnavailable`. -/
theorem get_duration_estimate_contract :
    (∀ (fa : Bool) (f : AudioProcessor.AudioFile),
      (∃ m, AudioProcessor.get_duration fa f = .error (.fileNotFoundError m))
        ↔ f.existsOnDisk = false) ∧
    (∀ (fa : Bool) (f : AudioProcessor.AudioFile) (sz : ℕ),
      f.existsOnDisk = true →
      (lowerEndsWith f.path ".wav" = true → f.wavResult = none) →
      (fa = true → f.pydubResult = none) →
      f.sizeBytes = some sz →
      ((lowerEndsWith f.path ".m4a" = false →
        AudioProcessor.get_duration fa f
          = .ok ((sz : ℚ) * 8 / (128 * 1000))) ∧
       (lowerEndsWith f.path ".m4a" = true →
        AudioProcessor.get_duration fa f
          = .ok ((sz : ℚ) * 8 / (256 * 1000))) ∧
       (∃ d : ℚ, AudioProcessor.get_duration fa f = .ok d ∧
          0 ≤ d ∧ (0 < sz → 0 < d)))) ∧
    (∀ (fa : Bool) (f : AudioProcessor.AudioFile),
      f.existsOnDisk = true →
      (lowerEndsWith f.path ".wav" = true → f.wavResult = none) →
      (fa = true → f.pydubResult = none) →
      f.sizeBytes = none →
      AudioProcessor.get_duration fa f = .error (.runtimeError
        "Cannot determine audio duration - FFmpeg is required for accurate audio processing")) := by
  have hwavnone : ∀ (f : AudioProcessor.AudioFile),
      (lowerEndsWith f.path ".wav" = true → f.wavResult = none) →
      (if lowerEndsWith f.path ".wav" then f.wavResult else none) = none := by
    intro f hwav
    cases hc : lowerEndsWith f.path ".wav"
    · simp
    · simp [hwav hc]
  have hpynone : ∀ (fa : Bool) (f : AudioProcessor.AudioFile),
      (fa = true → f.pydubResult = none) →
      (if fa then f.pydubResult else none) = none := by
    intro fa f hpy
    cases hfa : fa
    · simp
    · simp [hpy hfa]
  refine ⟨?_, ?_, ?_⟩
  · intro fa f
    constructor
    · rintro ⟨m, hm⟩
      cases hE : f.existsOnDisk
      · rfl
      · exfalso
        unfold AudioProcessor.get_duration at hm
        rw [if_neg (by simp [hE])] at hm
        repeat' split at hm
        all_goals first
          | exact Except.noConfusion hm
          | (rw [Except.error.injEq] at hm; exact PyExn.noConfusion hm)
    · intro hE
      refine ⟨"Audio file not found: " ++ f.path, ?_⟩
      unfold AudioProcessor.get_duration
      rw [if_pos hE]
  · intro fa f sz hE hwav hpy hsz
    have hstep : AudioProcessor.get_duration fa f
        = (if lowerEndsWith f.path ".mp3" then
            Except.ok ((sz : ℚ) * 8 / (128 * 1000))
          else if lowerEndsWith f.path ".m4a" then
            Except.ok ((sz : ℚ) * 8 / (256 * 1000))
          else
            Except.ok ((sz : ℚ) * 8 / (128 * 1000))) := by
      unfold AudioProcessor.get_duration
      rw [if_neg (by simp [hE]), hwavnone f hwav, hpynone fa f hpy, hsz]
    have hbound : ∀ c : ℚ, 0 < c →
        0 ≤ (sz : ℚ) * 8 / c ∧ (0 < sz → 0 < (sz : ℚ) * 8 / c) := by
      intro c hc
      constructor
      · exact div_nonneg (by positivity) hc.le
      · intro hsz0
        apply div_pos _ hc
        have hq : (0 : ℚ) < (sz : ℚ) := by exact_mod_cast hsz0
        nlinarith
    refine ⟨?_, ?_, ?_⟩
    · intro hm4a
      rw [hstep]
      cases hmp3 : lowerEndsWith f.path ".mp3"
      · rw [if_neg (by simp), if_neg (by simp [hm4a])]
      · rw [if_pos rfl]
    · intro hm4a
      rw [hstep, if_neg (by simp [lowerEndsWith_m4a_not_mp3 f.path hm4a]),
        if_pos hm4a]
    · rw [hstep]
      split_ifs
      · exact ⟨_, rfl, (hbound (128 * 1000) (by norm_num)).1,
          (hbound (128 * 1000) (by norm_num)).2⟩
      · exact ⟨_, rfl, (hbound (256 * 1000) (by norm_num)).1,
          (hbound (256 * 1000) (by norm_num)).2⟩
      · exact ⟨_, rfl, (hbound (128 * 1000) (by norm_num)).1,
          (hbound (128 * 1000) (by norm_num)).2⟩
  · intro fa f hE hwav hpy hsz
    unfold AudioProcessor.get_duration
    rw [if_neg (by simp [hE]), hwavnone f hwav, hpynone fa f hpy, hsz]

/-- Witness for C6 (amended): a missing file, an existing `.m4a` file read
through the size fallback, and an existing file with unreadable size. -/
theorem get_duration_estimate_contract_witness :
    ((∃ m, AudioProcessor.get_duration false
        { path := "missing.mp3", existsOnDisk := false, wavResult := none,
          pydubResult := none, sizeBytes := none }
        = .error (.fileNotFoundError m))
      ↔ (AudioProcessor.AudioFile.existsOnDisk
          { path := "missing.mp3", existsOnDisk := false, wavResult := none,
            pydubResult := none, sizeBytes := none }) = false) ∧
    ((lowerEndsWith
        (AudioProcessor.AudioFile.path
          { path := "voice.m4a", existsOnDisk := true, wavResult := none,
            pydubResult := none, sizeBytes := some 960000 }) ".m4a" = true →
      AudioProcessor.get_duration false
        { path := "voice.m4a", existsOnDisk := true, wavResult := none,
          pydubResult := none, sizeBytes := some 960000 }
        = .ok (((960000 : ℕ) : ℚ) * 8 / (256 * 1000))) ∧
     (∃ d : ℚ, AudioProcessor.get_duration false
        { path := "voice.m4a", existsOnDisk := true, wavResult := none,
          pydubResult := none, sizeBytes := some 960000 } = .ok d ∧
        0 ≤ d ∧ (0 < (960000 : ℕ) → 0 < d))) ∧
    AudioProcessor.get_duration true
      { path := "voice.ogg", existsOnDisk := true, wavResult := none,
        pydubResult := none, sizeBytes := none }
      = .error (.runtimeError
        "Cannot determine audio duration - FFmpeg is required for accurate audio processing") :=
  ⟨get_duration_estimate_contract.1 false
      { path := "missing.mp3", existsOnDisk := false, wavResult := none,
        pydubResult := none, sizeBytes := none },
   ⟨(get_duration_estimate_contract.2.1 false
      { path := "voice.m4a", existsOnDisk := true, wavResult := none,
        pydubResult := none, sizeBytes := some 960000 } 960000
      rfl (fun _ => rfl) (fun _ => rfl) rfl).2.1,
    (get_duration_estimate_contract.2.1 false
      { path := "voice.m4a", existsOnDisk := true, wavResult := none,
        pydubResult := none, sizeBytes := some 960000 } 960000
      rfl (fun _ => rfl) (fun _ => rfl) rfl).2.2⟩,
   get_duration_estimate_contract.2.2 true
      { path := "voice.ogg", existsOnDisk := true, wavResult := none,
        pydubResult := none, sizeBytes := none }
      rfl (fun _ => rfl) (fun _ => rfl) rfl⟩

/-- Counterexample to C6 as stated: for an existing, readable, zero-byte
`.mp3` file the size fallback returns 0, which is not a positive estimate. -/
theorem get_duration_zero_size_counterexample :
    AudioProcessor.get_duration true
      { path := "voice.mp3", existsOnDisk := true, wavResult := none,
        pydubResult := none, sizeBytes := some 0 } = .ok 0 ∧
    ¬ (0 : ℚ) < 0 := by
  constructor
  · show Except.ok (((0 : ℕ) : ℚ) * 8 / (128 * 1000)) = Except.ok (0 : ℚ)
    norm_num
  · norm_num
